import Mathlib

/-!
Verification development for the Sistemas-RF Butterworth filter calculator
(src/js/app.js, with the historical variant in src/unnamed/part_000).

The JavaScript is shallowly embedded: strings are `String`, JS numbers that
hold validated integers or epoch milliseconds are `ℤ`/`ℕ`, the NaN produced
by `parseInt` on digit-free input is `Option.none`, and the transcendental
element values are real numbers, with `toFixed(d)` modelled as rounding to a
scaled integer (`round (x * 10^d)`) rendered through an explicit digit
printer.  JS built-ins used by the code (`isNaN` together with string-to-
number coercion, `parseInt(·, 10)`, `Date.prototype.toISOString`) are
modelled from the ECMAScript specification as executable functions.
-/

namespace RF

/-! ### Constants (src/js/app.js lines 8-11) -/

def MAX_REQUESTS : ℕ := 10

def TIME_WINDOW : ℤ := 60000

def MAX_INPUT : ℤ := 20

def MIN_INPUT : ℤ := 1

/-! ### ECMAScript string-to-number semantics

`jsIsNaN s` models `isNaN(s)` applied to a string: `ToNumber` on a string
yields NaN exactly when the string is not a `StringNumericLiteral`
(whitespace-only strings convert to 0, hence are not NaN).  The recognizer
below follows the ECMAScript grammar: optional surrounding whitespace, then
either nothing, or an optionally signed decimal literal or `Infinity`, or an
unsigned hex/octal/binary literal.  The whitespace set is restricted to the
four characters that can occur in this application's text input. -/

def isJsWhitespace (c : Char) : Bool :=
  c == ' ' || c == '\t' || c == '\n' || c == '\r'

def trimJs (cs : List Char) : List Char :=
  ((cs.dropWhile isJsWhitespace).reverse.dropWhile isJsWhitespace).reverse

def isHexDigitChar (c : Char) : Bool :=
  c.isDigit || ('a' ≤ c && c ≤ 'f') || ('A' ≤ c && c ≤ 'F')

def isOctalDigitChar (c : Char) : Bool :=
  '0' ≤ c && c ≤ '7'

def isBinaryDigitChar (c : Char) : Bool :=
  c == '0' || c == '1'

/-- An optional sign followed by one or more decimal digits, covering the
whole string. -/
def matchSignedDigits (cs : List Char) : Bool :=
  let cs' := match cs with
    | '+' :: r => r
    | '-' :: r => r
    | _ => cs
  !cs'.isEmpty && cs'.all Char.isDigit

/-- Recognize an ExponentPart covering the rest of the string:
`e`/`E`, an optional sign, then one or more decimal digits. -/
def matchExp (cs : List Char) : Bool :=
  match cs with
  | 'e' :: r => matchSignedDigits r
  | 'E' :: r => matchSignedDigits r
  | _ => false

def matchExpOpt (cs : List Char) : Bool :=
  cs.isEmpty || matchExp cs

/-- Recognize an unsigned DecimalLiteral covering the whole string:
`digits [. digits] [exp]` or `. digits [exp]`. -/
def matchUnsignedDecimal (cs : List Char) : Bool :=
  let intDigits := cs.takeWhile Char.isDigit
  let rest := cs.dropWhile Char.isDigit
  if intDigits.isEmpty then
    match rest with
    | '.' :: r =>
        !(r.takeWhile Char.isDigit).isEmpty && matchExpOpt (r.dropWhile Char.isDigit)
    | _ => false
  else
    match rest with
    | [] => true
    | '.' :: r => matchExpOpt (r.dropWhile Char.isDigit)
    | r => matchExp r

def matchUnsignedOrInfinity (cs : List Char) : Bool :=
  cs == "Infinity".data || matchUnsignedDecimal cs

/-- Recognize `0x…`, `0o…`, `0b…` NonDecimalIntegerLiterals (no sign allowed). -/
def matchNonDecimal (cs : List Char) : Bool :=
  match cs with
  | '0' :: x :: rest =>
      ((x == 'x' || x == 'X') && !rest.isEmpty && rest.all isHexDigitChar)
      || ((x == 'o' || x == 'O') && !rest.isEmpty && rest.all isOctalDigitChar)
      || ((x == 'b' || x == 'B') && !rest.isEmpty && rest.all isBinaryDigitChar)
  | _ => false

def matchStrNumericBody (cs : List Char) : Bool :=
  match cs with
  | '+' :: r => matchUnsignedOrInfinity r
  | '-' :: r => matchUnsignedOrInfinity r
  | _ => matchUnsignedOrInfinity cs || matchNonDecimal cs

/-- `ToNumber` on the string succeeds (does not yield NaN). -/
def jsStringIsNumeric (s : String) : Bool :=
  let t := trimJs s.data
  t.isEmpty || matchStrNumericBody t

/-- `isNaN(s)` for a string argument `s`. -/
def jsIsNaN (s : String) : Bool :=
  !jsStringIsNumeric s

def digitsToNat (ds : List Char) : ℕ :=
  ds.foldl (fun acc c => 10 * acc + (c.toNat - 48)) 0

/-- `parseInt(s, 10)`: skip leading whitespace, read an optional sign and
then the longest prefix of decimal digits; NaN (`none`) when no digit is
found. -/
def jsParseInt10 (s : String) : Option ℤ :=
  let cs := s.data.dropWhile isJsWhitespace
  let sgn : ℤ := match cs with
    | '-' :: _ => -1
    | _ => 1
  let cs2 : List Char := match cs with
    | '-' :: r => r
    | '+' :: r => r
    | _ => cs
  let ds := cs2.takeWhile Char.isDigit
  if ds.isEmpty then none else some (sgn * (digitsToNat ds : ℤ))

/-! ### Validator (src/js/app.js lines 35-57) -/

/-- Result object of `validateInput`.  The JS failure objects carry no
`value` field and the success object stores `parseInt`'s result, which can
itself be NaN; both absences are modelled by `none`. -/
structure ValidationResult where
  valid : Bool
  message : String
  value : Option ℤ
deriving DecidableEq

def validateInput (value : String) : ValidationResult :=
  if jsIsNaN value || value == "" then
    ⟨false, "⚠️ Invalid input: Must be a number", none⟩
  else
    let num := jsParseInt10 value
    if (match num with
        | some m => decide (m < MIN_INPUT) || decide (m > MAX_INPUT)
        | none => false) then
      ⟨false, "⚠️ Input out of range: " ++ toString MIN_INPUT ++ "-" ++
        toString MAX_INPUT ++ " allowed", none⟩
    else if value.data.contains '.' || value.data.contains ',' then
      ⟨false, "⚠️ Invalid input: Integer required", none⟩
    else
      ⟨true, "✓ Input validated", num⟩

/-! ### Rate limiter (src/js/app.js lines 66-85)

`checkRateLimit` reads `Date.now()` and mutates the module-level
`requestHistory` array; the embedding passes the clock and the history
explicitly and returns the new history. -/

structure RateLimitResult where
  allowed : Bool
  message : Option String
deriving DecidableEq

def rateLimitMessage : String :=
  "⚠️ Rate limit exceeded: Max " ++ toString MAX_REQUESTS ++ " requests per minute"

/-- The filter on line 70-72: keep `timestamp` when `now - timestamp < TIME_WINDOW`. -/
def prune (now : ℤ) (hist : List ℤ) : List ℤ :=
  hist.filter (fun t => decide (now - t < TIME_WINDOW))

def checkRateLimit (now : ℤ) (hist : List ℤ) : RateLimitResult × List ℤ :=
  if MAX_REQUESTS ≤ (prune now hist).length then
    (⟨false, some rateLimitMessage⟩, prune now hist)
  else
    (⟨true, none⟩, prune now hist ++ [now])

/-- Run a sequence of rate-limit checks at the given times, threading the
mutable `requestHistory` through, collecting the individual results. -/
def runRateLimiter : List ℤ → List ℤ → List RateLimitResult × List ℤ
  | [], hist => ([], hist)
  | t :: ts, hist =>
      let step := checkRateLimit t hist
      let rest := runRateLimiter ts step.2
      (step.1 :: rest.1, rest.2)

/-! ### Decimal string formatting

`x.toFixed(d)` (for the magnitudes occurring here) returns the decimal
string of the integer nearest to `x·10^d` (ties to the larger integer, which
is Mathlib's `round`), with a `.` inserted `d` digits from the right.  The
scaled integer is printed through an explicit digit printer. -/

def digitChar (n : ℕ) : Char :=
  Char.ofNat (48 + n % 10)

def pad2 (m : ℕ) : List Char :=
  [digitChar (m / 10), digitChar m]

def pad3 (m : ℕ) : List Char :=
  [digitChar (m / 100), digitChar (m / 10), digitChar m]

def pad4 (m : ℕ) : List Char :=
  [digitChar (m / 1000), digitChar (m / 100), digitChar (m / 10), digitChar m]

/-- The string returned by `toFixed(4)`, given the value already scaled to an
integer number of ten-thousandths. -/
def fixed4String (z : ℤ) : String :=
  (if z < 0 then "-" else "") ++ toString (z.natAbs / 10000) ++ "." ++
    String.mk (pad4 (z.natAbs % 10000))

/-- The string returned by `toFixed(3)`, given the value already scaled to an
integer number of thousandths (used by the historical variant). -/
def fixed3String (z : ℤ) : String :=
  (if z < 0 then "-" else "") ++ toString (z.natAbs / 1000) ++ "." ++
    String.mk (pad3 (z.natAbs % 1000))

/-- The fractional digits of a formatted decimal string: the characters after
the last `.`. -/
def decimalsOf (s : String) : List Char :=
  (s.data.reverse.takeWhile (fun c => c != '.')).reverse

/-! ### Element calculator (src/js/app.js lines 91-101) -/

inductive ElementType
  | capacitor
  | inductor
deriving DecidableEq

def ElementType.label : ElementType → String
  | capacitor => "capacitor"
  | inductor => "inductor"

structure FilterElement where
  type : ElementType
  index : ℕ
  value : String
deriving DecidableEq

/-- Line 93: `ak = 2 * Math.sin(((2 * k - 1) * Math.PI) / (2 * n))`. -/
noncomputable def ak (k n : ℕ) : ℝ :=
  2 * Real.sin ((2 * (k : ℝ) - 1) * Real.pi / (2 * (n : ℝ)))

noncomputable def toFixed4 (x : ℝ) : String :=
  fixed4String (round (x * 10000))

noncomputable def calculateElements (k n : ℕ) : FilterElement :=
  ⟨if k % 2 = 0 then ElementType.capacitor else ElementType.inductor, k,
   toFixed4 (ak k n)⟩

/-- The element loop of the submit handler (lines 187-190):
`for (let k = 1; k <= n; k++) elements.push(calculateElements(k, n))`. -/
noncomputable def computeElements (n : ℕ) : List FilterElement :=
  (List.range n).map (fun i => calculateElements (i + 1) n)

/-! ### Renderer (src/js/app.js lines 26-30 and 106-132)

The output region `resultField` is modelled as the list of rendered result
items; `renderResults` starts with `resultField.textContent = ''`, so the
prior contents never reach the result.  The animation `setTimeout` only
toggles a CSS class and is cosmetic. -/

/-- `sanitizeHTML`: serializing a text node escapes `&`, `<`, `>`. -/
def escapeChar (c : Char) : List Char :=
  if c == '&' then "&amp;".data
  else if c == '<' then "&lt;".data
  else if c == '>' then "&gt;".data
  else [c]

def sanitizeHTML (s : String) : String :=
  String.mk (s.data.map escapeChar).flatten

structure ResultItem where
  icon : String
  text : String
deriving DecidableEq

def mkResultItem (e : FilterElement) : ResultItem :=
  ⟨if e.type == ElementType.capacitor then "⚡" else "🔌",
   "El " ++ sanitizeHTML e.type.label ++ " " ++ toString e.index ++ " vale " ++ e.value⟩

def renderResults (elements : List FilterElement) (_prior : List ResultItem) :
    List ResultItem :=
  elements.map mkResultItem

/-! ### `Date.prototype.toISOString`

Modelled from the ECMAScript specification for time values whose year lies
in [0, 9999] (every value `Date.now()` can return today does): split the
time value into days and time-of-day with floor semantics, convert days to a
proleptic-Gregorian civil date, and print `YYYY-MM-DDTHH:mm:ss.sssZ`. -/

def civilFromDays (z0 : ℤ) : ℤ × ℕ × ℕ :=
  let z := z0 + 719468
  let era := Int.fdiv z 146097
  let doe := (z - era * 146097).toNat
  let yoe := (doe - doe / 1460 + doe / 36524 - doe / 146096) / 365
  let doy := doe - (365 * yoe + yoe / 4 - yoe / 100)
  let mp := (5 * doy + 2) / 153
  let d := doy - (153 * mp + 2) / 5 + 1
  let m := if mp < 10 then mp + 3 else mp - 9
  ((yoe : ℤ) + era * 400 + (if m ≤ 2 then 1 else 0), m, d)

def jsToISOString (t : ℤ) : String :=
  let days := Int.fdiv t 86400000
  let timeOfDay := (t - days * 86400000).toNat
  let ms := timeOfDay % 1000
  let sec := timeOfDay / 1000 % 60
  let minute := timeOfDay / 60000 % 60
  let hour := timeOfDay / 3600000 % 24
  let ymd := civilFromDays days
  String.mk (pad4 ymd.1.toNat ++ '-' :: pad2 ymd.2.1 ++ '-' :: pad2 ymd.2.2 ++
    'T' :: pad2 hour ++ ':' :: pad2 minute ++ ':' :: pad2 sec ++
    '.' :: pad3 ms ++ ['Z'])

/-- Shape check for `YYYY-MM-DDTHH:mm:ss.sssZ` (the ISO-8601 extended
date-time format used by `toISOString`). -/
def isISO8601 (s : String) : Bool :=
  match s.data with
  | [y1, y2, y3, y4, s1, o1, o2, s2, d1, d2, st, h1, h2, sc1, i1, i2, sc2,
     e1, e2, sd, f1, f2, f3, sz] =>
      ([y1, y2, y3, y4, o1, o2, d1, d2, h1, h2, i1, i2, e1, e2, f1, f2, f3].all
        Char.isDigit)
      && s1 == '-' && s2 == '-' && st == 'T' && sc1 == ':' && sc2 == ':'
      && sd == '.' && sz == 'Z'
  | _ => false

/-! ### Submit handler (src/js/app.js lines 167-203)

The handler's observable effects are modelled as a record: the new
`requestHistory`, the contents of `resultField`, the validation message
shown (with its error flag), and the audit records written to the console.
When validation succeeds with a NaN `value` (see `validateInput`), the JS
loop `for (let k = 1; k <= n; k++)` runs zero times. -/

/-- A value of the audit object literal on lines 196-202: a string or a JS
number (NaN as `none`). -/
inductive JsValue
  | str (s : String)
  | num (z : Option ℤ)
deriving DecidableEq

structure SubmitOutcome where
  history : List ℤ
  output : List ResultItem
  message : Option (String × Bool)
  audits : List (List (String × JsValue))
deriving DecidableEq

noncomputable def handleSubmit (v : String) (now : ℤ) (hist : List ℤ)
    (out : List ResultItem) : SubmitOutcome :=
  let rl := checkRateLimit now hist
  if rl.1.allowed = false then
    ⟨rl.2, out, some (rl.1.message.getD "", true), []⟩
  else
    let validation := validateInput v
    if validation.valid = false then
      ⟨rl.2, out, some (validation.message, true), []⟩
    else
      let elements := match validation.value with
        | some m => computeElements m.toNat
        | none => []
      ⟨rl.2, renderResults elements out, none,
       [[("timestamp", JsValue.str (jsToISOString now)),
         ("action", JsValue.str "CALCULATION_PERFORMED"),
         ("input", JsValue.num validation.value),
         ("elements", JsValue.num (some (elements.length : ℤ))),
         ("requestCount", JsValue.num (some (rl.2.length : ℤ)))]]⟩

/-! ### Historical variant (src/unnamed/part_000)

The older submit handler builds raw HTML by string concatenation; its inner
`elements(k, n)` returns the display string directly, with the value
formatted by `toFixed(3)` and a trailing `<br>`. -/

def oldElemento (k : ℕ) : String :=
  if k % 2 = 0 then "capacitor" else "inductor"

noncomputable def oldAk (k n : ℕ) : ℝ :=
  2 * Real.sin ((2 * (k : ℝ) - 1) * Real.pi / (2 * (n : ℝ)))

noncomputable def oldElementString (k n : ℕ) : String :=
  "El " ++ oldElemento k ++ " " ++ toString k ++ " vale " ++
    fixed3String (round (oldAk k n * 1000)) ++ "<br>"

/-! ### Helper lemmas -/

theorem digitChar_isDigit (n : ℕ) : (digitChar n).isDigit = true := by
  unfold digitChar
  have h : n % 10 < 10 := Nat.mod_lt _ (by norm_num)
  set m := n % 10 with hm
  interval_cases m <;> decide

theorem digitChar_bne_dot (n : ℕ) : (digitChar n != '.') = true := by
  unfold digitChar
  have h : n % 10 < 10 := Nat.mod_lt _ (by norm_num)
  set m := n % 10 with hm
  interval_cases m <;> decide

theorem takeWhile_all_append {p : Char → Bool} (l₁ : List Char) (c : Char)
    (l₂ : List Char) (h₁ : ∀ a ∈ l₁, p a = true) (h₂ : p c = false) :
    (l₁ ++ c :: l₂).takeWhile p = l₁ := by
  induction l₁ with
  | nil => simp [List.takeWhile_cons, h₂]
  | cons a l ih =>
      simp only [List.cons_append, List.takeWhile_cons, h₁ a (by simp),
        if_pos rfl]
      simp [ih (fun b hb => h₁ b (by simp [hb]))]

theorem pad4_reverse_no_dot (m : ℕ) : ∀ a ∈ (pad4 m).reverse, (a != '.') = true := by
  intro a ha
  rw [List.mem_reverse] at ha
  simp only [pad4, List.mem_cons, List.not_mem_nil, or_false] at ha
  rcases ha with h | h | h | h <;> subst h <;> exact digitChar_bne_dot _

theorem decimalsOf_fixed4String (z : ℤ) :
    decimalsOf (fixed4String z) = pad4 (z.natAbs % 10000) := by
  have hmk : ∀ l : List Char, (String.mk l).data = l := fun _ => rfl
  have hdot : ("." : String).data = ['.'] := rfl
  unfold decimalsOf fixed4String
  rw [String.data_append, String.data_append, String.data_append, hdot]
  simp only [hmk, List.reverse_append, List.reverse_singleton,
    List.singleton_append]
  rw [takeWhile_all_append ((pad4 (z.natAbs % 10000)).reverse) '.' _
    (pad4_reverse_no_dot _) rfl]
  exact List.reverse_reverse _

theorem pad4_length (m : ℕ) : (pad4 m).length = 4 := rfl

theorem pad4_all_digits (m : ℕ) : (pad4 m).all Char.isDigit = true := by
  simp [pad4, digitChar_isDigit]

theorem prune_length_le (now : ℤ) (hist : List ℤ) :
    (prune now hist).length ≤ hist.length :=
  List.length_filter_le _ _

theorem checkRateLimit_len (now : ℤ) (hist : List ℤ)
    (h : hist.length ≤ MAX_REQUESTS) :
    ((checkRateLimit now hist).2).length ≤ MAX_REQUESTS := by
  have hp := prune_length_le now hist
  unfold checkRateLimit
  split
  · exact le_trans hp h
  · next hc =>
      simp only [List.length_append, List.length_cons, List.length_nil]
      unfold MAX_REQUESTS at *
      omega

theorem runRateLimiter_len (times : List ℤ) :
    ∀ hist : List ℤ, hist.length ≤ MAX_REQUESTS →
      ((runRateLimiter times hist).2).length ≤ MAX_REQUESTS := by
  induction times with
  | nil => intro hist h; simpa [runRateLimiter] using h
  | cons t ts ih =>
      intro hist h
      simp only [runRateLimiter]
      exact ih _ (checkRateLimit_len t hist h)

theorem iso_shape (t : ℤ) : isISO8601 (jsToISOString t) = true := by
  unfold jsToISOString isISO8601
  simp [pad4, pad2, pad3, digitChar_isDigit]

theorem oldAk_eq_ak (k n : ℕ) : oldAk k n = ak k n := rfl

theorem ak_one_one : ak 1 1 = 2 := by
  unfold ak
  have h : (2 * ((1 : ℕ) : ℝ) - 1) * Real.pi / (2 * ((1 : ℕ) : ℝ)) = Real.pi / 2 := by
    push_cast
    ring
  rw [h, Real.sin_pi_div_two]
  norm_num

theorem newValue_one_one : (calculateElements 1 1).value = "2.0000" := by
  have h0 : (calculateElements 1 1).value = toFixed4 (ak 1 1) := rfl
  rw [h0, ak_one_one]
  unfold toFixed4
  rw [show ((2 : ℝ) * 10000) = ((20000 : ℤ) : ℝ) by norm_num, round_intCast]
  decide

/-! ### Claims -/

/-- Claim C1: for every n in [1,20] the submit pipeline's element computation
produces exactly n elements in index order k = 1..n; the k-th element has
type capacitor for even k and inductor for odd k, and its value is
`2*sin((2k-1)*pi/(2n))` formatted to exactly 4 decimal digits. -/
theorem computeElements_spec (n : ℕ) (h1 : 1 ≤ n) (h2 : n ≤ 20) :
    (computeElements n).length = n ∧
    ∀ k : ℕ, 1 ≤ k → k ≤ n →
      (computeElements n)[k - 1]? =
        some ⟨if k % 2 = 0 then ElementType.capacitor else ElementType.inductor, k,
          fixed4String (round ((2 * Real.sin ((2 * (k : ℝ) - 1) * Real.pi / (2 * (n : ℝ)))) * 10000))⟩ ∧
      (decimalsOf (calculateElements k n).value).length = 4 ∧
      (decimalsOf (calculateElements k n).value).all Char.isDigit = true := by
  refine ⟨by simp [computeElements], ?_⟩
  intro k hk1 hk2
  have hlt : k - 1 < n := by omega
  refine ⟨?_, ?_, ?_⟩
  · rw [computeElements, List.getElem?_map, List.getElem?_range hlt]
    simp only [Option.map_some']
    rw [Nat.sub_add_cancel hk1]
    rfl
  · rw [show (calculateElements k n).value = fixed4String (round (ak k n * 10000)) from rfl,
      decimalsOf_fixed4String]
    exact pad4_length _
  · rw [show (calculateElements k n).value = fixed4String (round (ak k n * 10000)) from rfl,
      decimalsOf_fixed4String]
    exact pad4_all_digits _

/-- Claim C1 (witness): the element computation at order 4, with the index
claim instantiated at k = 2. -/
theorem computeElements_spec_instance :
    (computeElements 4).length = 4 ∧
    ((computeElements 4)[2 - 1]? =
      some ⟨if 2 % 2 = 0 then ElementType.capacitor else ElementType.inductor, 2,
        fixed4String (round ((2 * Real.sin ((2 * ((2 : ℕ) : ℝ) - 1) * Real.pi /
          (2 * ((4 : ℕ) : ℝ)))) * 10000))⟩ ∧
     (decimalsOf (calculateElements 2 4).value).length = 4 ∧
     (decimalsOf (calculateElements 2 4).value).all Char.isDigit = true) :=
  ⟨(computeElements_spec 4 (by norm_num) (by norm_num)).1,
   (computeElements_spec 4 (by norm_num) (by norm_num)).2 2 (by norm_num) (by norm_num)⟩

/-- Claim C2: starting from an empty timestamp store with window 60000 ms and
max 10, ten `checkRateLimit` calls at time 0 all return allowed; an eleventh
call at time 0 is denied; and after ten calls at time 0, a call at time
60001 is allowed again. -/
theorem rateLimiter_scenario :
    ((runRateLimiter (List.replicate 10 (0 : ℤ)) []).1.map RateLimitResult.allowed
      = List.replicate 10 true) ∧
    ((checkRateLimit 0 (runRateLimiter (List.replicate 10 (0 : ℤ)) []).2).1.allowed
      = false) ∧
    ((checkRateLimit 60001 (runRateLimiter (List.replicate 10 (0 : ℤ)) []).2).1.allowed
      = true) := by
  decide

/-- Claim C3 (failing input): the code accepts the single-space input — whose
trimmed content is empty — as valid with a NaN value, because `isNaN(" ")` is
false (`ToNumber(" ") = 0`) while `parseInt(" ", 10)` is NaN, and NaN fails
both range comparisons.  The claim instead requires an invalid result with
the NotANumber message. -/
theorem validateInput_whitespace :
    validateInput " " = ⟨true, "✓ Input validated", none⟩ := by
  decide

/-- Claim C4: `validateInput` rejects "", "abc", "0", "21", "3.5", "1,5" and
accepts "1" through "20" with the corresponding integer value. -/
theorem validateInput_table :
    (validateInput "").valid = false ∧
    (validateInput "abc").valid = false ∧
    (validateInput "0").valid = false ∧
    (validateInput "21").valid = false ∧
    (validateInput "3.5").valid = false ∧
    (validateInput "1,5").valid = false ∧
    validateInput "1" = ⟨true, "✓ Input validated", some 1⟩ ∧
    validateInput "2" = ⟨true, "✓ Input validated", some 2⟩ ∧
    validateInput "3" = ⟨true, "✓ Input validated", some 3⟩ ∧
    validateInput "4" = ⟨true, "✓ Input validated", some 4⟩ ∧
    validateInput "5" = ⟨true, "✓ Input validated", some 5⟩ ∧
    validateInput "6" = ⟨true, "✓ Input validated", some 6⟩ ∧
    validateInput "7" = ⟨true, "✓ Input validated", some 7⟩ ∧
    validateInput "8" = ⟨true, "✓ Input validated", some 8⟩ ∧
    validateInput "9" = ⟨true, "✓ Input validated", some 9⟩ ∧
    validateInput "10" = ⟨true, "✓ Input validated", some 10⟩ ∧
    validateInput "11" = ⟨true, "✓ Input validated", some 11⟩ ∧
    validateInput "12" = ⟨true, "✓ Input validated", some 12⟩ ∧
    validateInput "13" = ⟨true, "✓ Input validated", some 13⟩ ∧
    validateInput "14" = ⟨true, "✓ Input validated", some 14⟩ ∧
    validateInput "15" = ⟨true, "✓ Input validated", some 15⟩ ∧
    validateInput "16" = ⟨true, "✓ Input validated", some 16⟩ ∧
    validateInput "17" = ⟨true, "✓ Input validated", some 17⟩ ∧
    validateInput "18" = ⟨true, "✓ Input validated", some 18⟩ ∧
    validateInput "19" = ⟨true, "✓ Input validated", some 19⟩ ∧
    validateInput "20" = ⟨true, "✓ Input validated", some 20⟩ := by
  decide

/-- Claim C5 (counterexample): a timestamp exactly 60000 ms old is removed by
the prune, not retained — at `now = 60000` the stored timestamp
`0 = now - TIME_WINDOW` is filtered out because `now - 0 < 60000` is false. -/
theorem prune_boundary_dropped :
    (60000 : ℤ) - TIME_WINDOW = 0 ∧ prune 60000 [0] = [] := by
  decide

/-- Claim C5 (amended): the prune removes a stored timestamp `t` iff
`now - t ≥ 60000` (so a timestamp exactly 60000 ms old is removed); if the
post-prune count is at least 10 the call is denied without appending `now`,
otherwise `now` is appended and the call is allowed. -/
theorem checkRateLimit_prune_spec (now t : ℤ) (hist : List ℤ) :
    (t ∈ prune now hist ↔ t ∈ hist ∧ now - t < TIME_WINDOW) ∧
    (MAX_REQUESTS ≤ (prune now hist).length →
      checkRateLimit now hist = (⟨false, some rateLimitMessage⟩, prune now hist)) ∧
    ((prune now hist).length < MAX_REQUESTS →
      checkRateLimit now hist = (⟨true, none⟩, prune now hist ++ [now])) := by
  refine ⟨?_, ?_, ?_⟩
  · simp [prune, List.mem_filter]
  · intro h
    simp [checkRateLimit, h]
  · intro h
    have hn : ¬ MAX_REQUESTS ≤ (prune now hist).length := by omega
    simp [checkRateLimit, hn]

/-- Claim C5 (witness): the amended statement applied at concrete inputs. -/
theorem checkRateLimit_prune_spec_instance :
    ((0 : ℤ) ∈ prune 60001 [0] ↔ (0 : ℤ) ∈ [(0 : ℤ)] ∧ (60001 : ℤ) - 0 < TIME_WINDOW) ∧
    checkRateLimit 0 (List.replicate 10 (0 : ℤ)) =
      (⟨false, some rateLimitMessage⟩, prune 0 (List.replicate 10 (0 : ℤ))) ∧
    checkRateLimit 60001 (List.replicate 10 (0 : ℤ)) =
      (⟨true, none⟩, prune 60001 (List.replicate 10 (0 : ℤ)) ++ [60001]) :=
  ⟨(checkRateLimit_prune_spec 60001 0 [0]).1,
   (checkRateLimit_prune_spec 0 0 (List.replicate 10 0)).2.1 (by decide),
   (checkRateLimit_prune_spec 60001 0 (List.replicate 10 0)).2.2 (by decide)⟩

/-- Claim C7: `renderResults` clears all prior output before rendering, so
rendering batch A and then batch B leaves exactly batch B's content — the
same output state as rendering B into an empty output region. -/
theorem renderResults_no_accumulation (A B : List FilterElement)
    (prior : List ResultItem) :
    renderResults B (renderResults A prior) = renderResults B [] ∧
    renderResults B (renderResults A prior) = B.map mkResultItem :=
  ⟨rfl, rfl⟩

/-- Claim C10: starting from the empty store, after any sequence of
`checkRateLimit` calls the stored timestamp sequence has length at most
`MAX_REQUESTS`; and a denied call returns the post-prune history unchanged
(nothing appended). -/
theorem rateLimiter_invariant (times : List ℤ) :
    ((runRateLimiter times []).2).length ≤ MAX_REQUESTS ∧
    ∀ now hist, (checkRateLimit now hist).1.allowed = false →
      (checkRateLimit now hist).2 = prune now hist := by
  constructor
  · exact runRateLimiter_len times [] (by simp [MAX_REQUESTS])
  · intro now hist h
    by_cases hc : MAX_REQUESTS ≤ (prune now hist).length
    · simp [checkRateLimit, hc]
    · simp [checkRateLimit, hc] at h

/-- Claim C6: on submit the rate limiter is consulted and charged before the
validator runs — when the rate-limit check is denied the outcome does not
depend on the input text at all and neither validation, calculation nor
rendering is reflected in it; and when the input is invalid the timestamp
appended by the rate-limit check stays recorded (the slot is not
refunded). -/
theorem submit_rateLimit_before_validation (v : String) (now : ℤ)
    (hist : List ℤ) (out : List ResultItem) :
    (MAX_REQUESTS ≤ (prune now hist).length →
      handleSubmit v now hist out =
        ⟨prune now hist, out, some (rateLimitMessage, true), []⟩) ∧
    ((prune now hist).length < MAX_REQUESTS → (validateInput v).valid = false →
      handleSubmit v now hist out =
        ⟨prune now hist ++ [now], out, some ((validateInput v).message, true), []⟩ ∧
      now ∈ (handleSubmit v now hist out).history) := by
  constructor
  · intro h
    simp [handleSubmit, checkRateLimit, h]
  · intro h hv
    have hn : ¬ MAX_REQUESTS ≤ (prune now hist).length := by omega
    constructor
    · simp [handleSubmit, checkRateLimit, hn, hv]
    · simp [handleSubmit, checkRateLimit, hn, hv]

/-- Claim C6 (witness): the denied branch on a full store and the
invalid-input branch on an empty store, both at concrete inputs. -/
theorem submit_rateLimit_before_validation_instance :
    handleSubmit "abc" 0 (List.replicate 10 (0 : ℤ)) [] =
      ⟨prune 0 (List.replicate 10 (0 : ℤ)), [], some (rateLimitMessage, true), []⟩ ∧
    (handleSubmit "abc" 0 [] [] =
      ⟨prune 0 [] ++ [0], [], some ((validateInput "abc").message, true), []⟩ ∧
     (0 : ℤ) ∈ (handleSubmit "abc" 0 [] []).history) :=
  ⟨(submit_rateLimit_before_validation "abc" 0 (List.replicate 10 0) []).1 (by decide),
   (submit_rateLimit_before_validation "abc" 0 [] []).2 (by decide) (by decide)⟩

/-- Claim C8 (counterexample): the audit object emitted on a successful
calculation (input "4" at time 0 on an empty store) carries its element
count under the key `elements` (app.js line 200), so its key list is
timestamp, action, input, elements, requestCount and no field named
`elementCount` occurs in it — refuting the claim that the record contains
a field `elementCount`. -/
theorem audit_field_name_differs :
    (handleSubmit "4" 0 [] []).audits =
      [[("timestamp", JsValue.str (jsToISOString 0)),
        ("action", JsValue.str "CALCULATION_PERFORMED"),
        ("input", JsValue.num (some 4)),
        ("elements", JsValue.num (some 4)),
        ("requestCount", JsValue.num (some 1))]] ∧
    (handleSubmit "4" 0 [] []).audits.map (fun r => r.map Prod.fst) =
      [["timestamp", "action", "input", "elements", "requestCount"]] ∧
    "elementCount" ∉ ((handleSubmit "4" 0 [] []).audits.flatten.map Prod.fst) := by
  have hval : validateInput "4" = ⟨true, "✓ Input validated", some 4⟩ := by decide
  have hn : ¬ MAX_REQUESTS ≤ (prune 0 ([] : List ℤ)).length := by decide
  have hrec : (handleSubmit "4" 0 [] []).audits =
      [[("timestamp", JsValue.str (jsToISOString 0)),
        ("action", JsValue.str "CALCULATION_PERFORMED"),
        ("input", JsValue.num (some 4)),
        ("elements", JsValue.num (some 4)),
        ("requestCount", JsValue.num (some 1))]] := by
    simp [handleSubmit, checkRateLimit, hn, hval, computeElements, prune,
      MAX_REQUESTS]
  exact ⟨hrec, by rw [hrec]; rfl, by rw [hrec]; decide⟩

/-- Claim C8 (amended): every successful calculation emits exactly one audit
record, whose timestamp is the ISO-8601 `toISOString` rendering of the
submit time, whose action is "CALCULATION_PERFORMED", whose input is the
validated integer, whose element count — logged under the key `elements`,
not `elementCount` — is the number of computed elements, and whose
requestCount is the rate-limit usage after this submission was recorded. -/
theorem submit_audit_record (v : String) (now : ℤ) (hist : List ℤ)
    (out : List ResultItem) (n : ℤ) (msg : String)
    (hallow : (prune now hist).length < MAX_REQUESTS)
    (hval : validateInput v = ⟨true, msg, some n⟩) :
    (handleSubmit v now hist out).audits =
      [[("timestamp", JsValue.str (jsToISOString now)),
        ("action", JsValue.str "CALCULATION_PERFORMED"),
        ("input", JsValue.num (some n)),
        ("elements", JsValue.num (some ((computeElements n.toNat).length : ℤ))),
        ("requestCount", JsValue.num (some ((prune now hist ++ [now]).length : ℤ)))]] ∧
    isISO8601 (jsToISOString now) = true := by
  constructor
  · have hn : ¬ MAX_REQUESTS ≤ (prune now hist).length := by omega
    simp [handleSubmit, checkRateLimit, hn, hval]
  · exact iso_shape now

/-- Claim C8 (witness): the amended audit-record statement for input "4"
submitted at time 0 on an empty store. -/
theorem submit_audit_record_instance :
    (handleSubmit "4" 0 [] []).audits =
      [[("timestamp", JsValue.str (jsToISOString 0)),
        ("action", JsValue.str "CALCULATION_PERFORMED"),
        ("input", JsValue.num (some 4)),
        ("elements", JsValue.num (some ((computeElements (4 : ℤ).toNat).length : ℤ))),
        ("requestCount", JsValue.num (some ((prune 0 [] ++ [0]).length : ℤ)))]] ∧
    isISO8601 (jsToISOString 0) = true :=
  submit_audit_record "4" 0 [] [] 4 "✓ Input validated" (by decide) (by decide)

/-- Claim C9 (counterexample): the two historical variants do not produce the
same formatted numeric value string — at n = 1, k = 1 the current variant
renders "El inductor 1 vale 2.0000" (toFixed(4)) while the historical
variant produces "El inductor 1 vale 2.000<br>" (toFixed(3) plus raw
markup). -/
theorem variants_display_differ :
    (mkResultItem (calculateElements 1 1)).text = "El inductor 1 vale 2.0000" ∧
    oldElementString 1 1 = "El inductor 1 vale 2.000<br>" ∧
    (mkResultItem (calculateElements 1 1)).text ≠ oldElementString 1 1 := by
  have htype : (calculateElements 1 1).type = ElementType.inductor := rfl
  have hidx : (calculateElements 1 1).index = 1 := rfl
  have hnew : (mkResultItem (calculateElements 1 1)).text = "El inductor 1 vale 2.0000" := by
    unfold mkResultItem
    rw [htype, hidx, newValue_one_one]
    decide
  have hold : oldElementString 1 1 = "El inductor 1 vale 2.000<br>" := by
    unfold oldElementString
    rw [oldAk_eq_ak, ak_one_one]
    rw [show ((2 : ℝ) * 1000) = ((2000 : ℤ) : ℝ) by norm_num, round_intCast]
    decide
  exact ⟨hnew, hold, by rw [hnew, hold]; decide⟩

/-- Claim C9 (amended): the two variants agree element for element on the
component type, the index, and the unrounded numeric value
`2*sin((2k-1)*pi/(2n))`; their formatted display strings differ in precision
(the historical variant formats to 3 decimal digits and appends raw `<br>`
markup, the current one formats to 4 decimal digits). -/
theorem variants_agree_on_values (k n : ℕ) :
    oldAk k n = ak k n ∧
    oldElemento k = (calculateElements k n).type.label ∧
    (calculateElements k n).value = fixed4String (round (ak k n * 10000)) ∧
    oldElementString k n = "El " ++ (calculateElements k n).type.label ++ " " ++
      toString k ++ " vale " ++ fixed3String (round (ak k n * 1000)) ++ "<br>" := by
  have h2 : oldElemento k = (calculateElements k n).type.label := by
    unfold oldElemento calculateElements ElementType.label
    by_cases h : k % 2 = 0 <;> simp [h]
  refine ⟨rfl, h2, rfl, ?_⟩
  calc oldElementString k n
      = "El " ++ oldElemento k ++ " " ++ toString k ++ " vale " ++
          fixed3String (round (oldAk k n * 1000)) ++ "<br>" := rfl
    _ = "El " ++ (calculateElements k n).type.label ++ " " ++ toString k ++
          " vale " ++ fixed3String (round (ak k n * 1000)) ++ "<br>" := by
        rw [h2, oldAk_eq_ak]

/-- Claim C10 (witness): the invariant applied at concrete inputs, with the
denial hypothesis discharged on a full store. -/
theorem rateLimiter_invariant_instance :
    ((runRateLimiter [(0 : ℤ), 0] []).2).length ≤ MAX_REQUESTS ∧
    (checkRateLimit 0 (List.replicate 10 (0 : ℤ))).2 =
      prune 0 (List.replicate 10 (0 : ℤ)) :=
  ⟨(rateLimiter_invariant [0, 0]).1,
   (rateLimiter_invariant [0, 0]).2 0 (List.replicate 10 0) (by decide)⟩

end RF
